import Mathlib

/-!
Verification of the screen-mirroring relay core of `uiautodev`
(`uiautodev/remote/`: `touch_controller.py`, `scrcpy.py`, `scrcpy3.py`,
`pipe.py`) against its natural-language specification.

Bytes are modelled as `Nat` values below 256, byte strings as `List Nat`.
-/

namespace Uiautodev

/-- Big-endian encoding of `v` into exactly `k` bytes (the wire format used by
the `construct` field types `Byte`, `Int16ub`, `Int32ub`, `Int64ub`).
Matches `construct` only for in-range values; out-of-range build attempts are
rejected separately (see `fieldFits`). -/
def beBytes : Nat → Nat → List Nat
  | 0, _ => []
  | k + 1, v => beBytes k (v / 256) ++ [v % 256]

/-- Big-endian value of a byte string. -/
def beVal (bs : List Nat) : Nat :=
  bs.foldl (fun a b => a * 256 + b) 0

/-- Reads one `k`-byte big-endian field from the front of a stream; fails if
fewer than `k` bytes remain (`construct` parse of `Int*ub`). -/
def readBE (k : Nat) (bs : List Nat) : Option (Nat × List Nat) :=
  if k ≤ bs.length then some (beVal (bs.take k), bs.drop k) else none

/-! ## Touch controller wire codec (`touch_controller.py`) -/

/-- Value of `MessageType.INJECT_TOUCH_EVENT` from `touch_controller.py`. -/
def INJECT_TOUCH_EVENT : Nat := 2

/-- Logical fields of the `TouchEvent` `construct.Struct` in
`touch_controller.py` (field order and widths as declared there). -/
structure TouchFields where
  type : Nat
  action : Nat
  pointer_id : Nat
  x : Nat
  y : Nat
  width : Nat
  height : Nat
  pressure : Nat
  action_button : Nat
  buttons : Nat
  deriving Repr, DecidableEq

/-- The `construct` library rejects a build when a field value exceeds its
width; this predicate mirrors those range checks for the `TouchEvent` struct. -/
def TouchFields.fits (f : TouchFields) : Prop :=
  f.type < 256 ∧ f.action < 256 ∧ f.pointer_id < 256 ^ 8 ∧
    f.x < 256 ^ 4 ∧ f.y < 256 ^ 4 ∧ f.width < 256 ^ 2 ∧ f.height < 256 ^ 2 ∧
    f.pressure < 256 ^ 2 ∧ f.action_button < 256 ^ 4 ∧ f.buttons < 256 ^ 4

instance (f : TouchFields) : Decidable f.fits := by
  unfold TouchFields.fits
  infer_instance

/-- Model of `TouchEvent.build`: big-endian serialization of the struct
`Byte, Byte, Int64ub, Int32ub, Int32ub, Int16ub, Int16ub, Int16ub, Int32ub,
Int32ub`; `none` models the `construct` exception on an out-of-range field. -/
def TouchEvent_build (f : TouchFields) : Option (List Nat) :=
  if f.fits then
    some (beBytes 1 f.type ++ beBytes 1 f.action ++ beBytes 8 f.pointer_id ++
      beBytes 4 f.x ++ beBytes 4 f.y ++ beBytes 2 f.width ++ beBytes 2 f.height ++
      beBytes 2 f.pressure ++ beBytes 4 f.action_button ++ beBytes 4 f.buttons)
  else none

/-- The matching decoder (`TouchEvent.parse`): reads the ten fields back in
order, failing on a short buffer. -/
def TouchEvent_parse (bs : List Nat) : Option TouchFields :=
  (readBE 1 bs).bind fun (ty, bs) =>
  (readBE 1 bs).bind fun (action, bs) =>
  (readBE 8 bs).bind fun (pid, bs) =>
  (readBE 4 bs).bind fun (x, bs) =>
  (readBE 4 bs).bind fun (y, bs) =>
  (readBE 2 bs).bind fun (w, bs) =>
  (readBE 2 bs).bind fun (h, bs) =>
  (readBE 2 bs).bind fun (press, bs) =>
  (readBE 4 bs).bind fun (ab, bs) =>
  (readBE 4 bs).bind fun (btns, _) =>
  some ⟨ty, action, pid, x, y, w, h, press, ab, btns⟩

/-- Model of the Python expression `max(0, min(v, hi))` on ints. -/
def clampTo (v : Int) (hi : Nat) : Nat :=
  (max 0 (min v (hi : Int))).toNat

/-- Model of `ScrcpyTouchController._build_touch_event`: clamps `x` to `[0, width]` and
`y` to `[0, height]`, then builds a `TouchEvent` with `pointer_id = 1`,
`pressure = 1`, `action_button = 1`, `buttons = 1`. -/
def build_touch_event (action : Nat) (x y : Int) (width height : Nat) :
    Option (List Nat) :=
  TouchEvent_build
    { type := INJECT_TOUCH_EVENT
      action := action
      pointer_id := 1
      x := clampTo x width
      y := clampTo y height
      width := width
      height := height
      pressure := 1
      action_button := 1
      buttons := 1 }

/-! ## Handshake decoding (`ScrcpyServer._parse_scrcpy_info`, `scrcpy.py`) -/

/-- A raw byte stream as delivered by a TCP socket: a list of chunks.
One `recvStream s n` call returns at most `n` bytes taken from the front of
the first nonempty chunk (so a single call may return fewer bytes than
requested even when more data arrives in later chunks, exactly as
`socket.recv`); an exhausted stream yields the empty byte string (EOF). -/
def recvStream : List (List Nat) → Nat → List Nat × List (List Nat)
  | [], _ => ([], [])
  | [] :: rest, n => recvStream rest n
  | (c :: cs) :: rest, n =>
    let taken := (c :: cs).take n
    let left := (c :: cs).drop n
    (taken, if left = [] then rest else left :: rest)

/-- First byte the stream will deliver, if any. -/
def firstByte : List (List Nat) → Option Nat
  | [] => none
  | [] :: rest => firstByte rest
  | (c :: _) :: _ => some c

/-- Result of `ScrcpyServer._parse_scrcpy_info`: device name (UTF-8 bytes with
trailing NULs stripped; decoding is the identity on the ASCII names used in
the claims) and the unpacked big-endian resolution pair. -/
structure ScrcpyInfo where
  device_name : List Nat
  resolution_width : Nat
  resolution_height : Nat
  deriving Repr, DecidableEq

/-- Model of the Python `rstrip` of NUL bytes applied to the device name. -/
def rstripNul (bs : List Nat) : List Nat :=
  (bs.reverse.dropWhile (· = 0)).reverse

/-- Model of `ScrcpyServer._parse_scrcpy_info`: `recv(1)` sentinel check
(raises `ConnectionError` unless the byte is `0x00`), `recv(64)` device name,
`recv(4)` codec, `recv(8)` resolution unpacked with `struct.unpack(">II", _)`
(which raises `struct.error` unless exactly 8 bytes were received). The second
component is the total number of stream bytes consumed. -/
def parse_scrcpy_info (s : List (List Nat)) : Except String ScrcpyInfo × Nat :=
  let r1 := recvStream s 1
  if r1.1 ≠ [0] then (.error "Did not receive Dummy Byte!", r1.1.length)
  else
    let r2 := recvStream r1.2 64
    let r3 := recvStream r2.2 4
    let r4 := recvStream r3.2 8
    let consumed := 1 + r2.1.length + r3.1.length + r4.1.length
    if r4.1.length = 8 then
      (.ok ⟨rstripNul r2.1, beVal (r4.1.take 4), beVal (r4.1.drop 4)⟩, consumed)
    else
      (.error "struct.error: unpack requires a buffer of 8 bytes", consumed)

/-- ASCII byte values of a string (used to state the device-name claims). -/
def asciiBytes (s : String) : List Nat :=
  s.data.map Char.toNat

/-! ## Duplex pipe (`pipe.py`) -/

/-- What the read that ends a `_pipe_oneway` loop does: an empty (EOF) read,
or a read that raises. -/
inductive ReadEnd
  | eof
  | rerr
  deriving Repr, DecidableEq

/-- Behaviour of a source endpoint across one `_pipe_oneway` run: the
successive chunks its `read` calls return, then how the next read ends.
An empty chunk inside `chunks` is also an EOF signal (`if not data: break`). -/
structure SrcScript where
  chunks : List (List Nat)
  fin : ReadEnd

/-- Observable trace of one `_pipe_oneway src dst` run. `readReqs` lists the
byte counts passed to `src.read` — these are the only operations performed on
`src`; `written` lists the chunks passed to `dst.write` in order. -/
structure PipeRun where
  readReqs : List Nat
  written : List (List Nat)
  dstClosed : Bool
  srcClosedByPipe : Bool
  deriving Repr, DecidableEq

/-- Recursion underlying `_pipe_oneway`: `wok k` tells whether the `k`-th
`dst.write` succeeds (`false` = raises). Each loop iteration reads one chunk
with `src.read(4096)`; an empty read breaks, a write failure is caught by the
`except` clause; the `finally` clause always runs `dst.close()` and never
touches `src`. -/
def pipe_oneway_go (wok : Nat → Bool) (fin : ReadEnd) : List (List Nat) → Nat → PipeRun
  | [], _ => { readReqs := [4096], written := [], dstClosed := true, srcClosedByPipe := false }
  | c :: cs, k =>
    if c = [] then
      { readReqs := [4096], written := [], dstClosed := true, srcClosedByPipe := false }
    else if wok k then
      let r := pipe_oneway_go wok fin cs (k + 1)
      { r with readReqs := 4096 :: r.readReqs, written := c :: r.written }
    else
      { readReqs := [4096], written := [], dstClosed := true, srcClosedByPipe := false }

/-- Model of `_pipe_oneway(src, dst, name)` from `pipe.py`. -/
def pipe_oneway (wok : Nat → Bool) (s : SrcScript) : PipeRun :=
  pipe_oneway_go wok s.fin s.chunks 0

/-- Final status of one of the two `_pipe_oneway` tasks launched by
`pipe_duplex`. -/
inductive TStat
  | running (rem : Nat)
  | finished
  | cancelled
  deriving Repr, DecidableEq

/-- Cooperative round-robin execution of `asyncio.wait([task_ab, task_ba],
return_when=FIRST_COMPLETED)` followed by `for t in pending: t.cancel()`, as
written in `pipe_duplex`. Each task is abstracted to the number of event-loop
steps it needs before it terminates on its own; every round advances both
still-running tasks by one step, and as soon as at least one has finished the
wait returns and the pending task is cancelled. The second component counts
the rounds executed before the wait returned. -/
def duplexLoop : Nat → Nat → Nat → Nat → (TStat × TStat) × Nat
  | 0, a, b, rounds => ((.running a, .running b), rounds)
  | fuel + 1, a, b, rounds =>
    if a = 0 ∨ b = 0 then
      ((if a = 0 then .finished else .cancelled,
        if b = 0 then .finished else .cancelled), rounds)
    else
      duplexLoop fuel (a - 1) (b - 1) (rounds + 1)

/-- Model of `pipe_duplex(a, b)` from `pipe.py`: `a` and `b` are the step
budgets of the two one-way copies; the result gives each task's final status
and the number of rounds run before `asyncio.wait` returned. -/
def pipe_duplex (a b : Nat) : (TStat × TStat) × Nat :=
  duplexLoop (min a b + 1) a b 0

/-! ## Connection retry (`ScrcpyServer._connect_scrcpy`, decorated with
`retry.retry(exceptions=AdbError, tries=20, delay=0.1)`) -/

/-- Number of attempts configured on `_connect_scrcpy` (both in `scrcpy.py`
and `scrcpy3.py`). -/
def connect_scrcpy_tries : Nat := 20

/-- Backoff configured on `_connect_scrcpy`, in milliseconds (`delay=0.1`). -/
def connect_scrcpy_delay_ms : Nat := 100

/-- Semantics of the `retry.retry` decorator: `f k` is the outcome of the
`k`-th attempt; `r` is the number of retries still allowed after the current
attempt. On an error with retries left, sleep the fixed delay and try again;
on the last attempt the outcome (success or error) is surfaced to the caller.
The second component counts the attempts actually made. -/
def retryGo {E A : Type} (f : Nat → Except E A) : Nat → Nat → Except E A × Nat
  | k, 0 => (f k, k + 1)
  | k, r + 1 =>
    match f k with
    | .ok a => (.ok a, k + 1)
    | .error _ => retryGo f (k + 1) r

/-- Model of `_connect_scrcpy` as the retry combinator applied with the
configured budget of 20 attempts. -/
def connect_scrcpy {E A : Type} (f : Nat → Except E A) : Except E A × Nat :=
  retryGo f 0 (connect_scrcpy_tries - 1)

/-! ## Socket-pair duplex endpoint (`RWSocketDuplex`, `pipe.py`) -/

/-- Outcome of one `loop.sock_recv` call: delivered bytes (empty = orderly
EOF) or a raised `ConnectionResetError`/`OSError`. -/
inductive RecvRes
  | data (bs : List Nat)
  | oserr
  deriving Repr, DecidableEq

/-- One underlying `socket.socket`, with its externally determined behaviour
(`recvBeh k` is the outcome of its `k`-th recv, `sendOkBeh k` tells whether
its `k`-th sendall succeeds) and the operation counters and delivered bytes
the model tracks. `closeCalls` counts how many times `close()` was invoked on
this socket. -/
structure MSock where
  recvBeh : Nat → RecvRes
  recvCalls : Nat
  sendOkBeh : Nat → Bool
  sendCalls : Nat
  sent : List Nat
  closeCalls : Nat

/-- State of an `RWSocketDuplex` (`pipe.py`): a read socket, a write socket,
the `_same` flag (`rsock is wsock`), and the `_closed` flag. -/
structure RWSocketDuplex where
  rsock : MSock
  wsock : MSock
  same : Bool
  closed : Bool

/-- Model of `RWSocketDuplex.__init__` on freshly opened sockets. -/
def RWSocketDuplex.init (rrb : Nat → RecvRes) (rsb : Nat → Bool)
    (wrb : Nat → RecvRes) (wsb : Nat → Bool) (same : Bool) : RWSocketDuplex :=
  { rsock := ⟨rrb, 0, rsb, 0, [], 0⟩
    wsock := ⟨wrb, 0, wsb, 0, [], 0⟩
    same := same
    closed := false }

/-- Model of `RWSocketDuplex.close`: a no-op when `_closed` is already set;
otherwise sets `_closed` and calls `close()` on `rsock`, and on `wsock` too
unless the two are the same socket. -/
def RWSocketDuplex.close (s : RWSocketDuplex) : RWSocketDuplex :=
  if s.closed then s
  else
    { s with
      closed := true
      rsock := { s.rsock with closeCalls := s.rsock.closeCalls + 1 }
      wsock := if s.same then s.wsock
               else { s.wsock with closeCalls := s.wsock.closeCalls + 1 } }

/-- Model of `RWSocketDuplex.read`: returns the empty byte string immediately
when closed; on an empty recv or a `ConnectionResetError`/`OSError` it closes
itself and returns the empty byte string; otherwise it returns the received
bytes. The requested size is irrelevant to the modelled behaviour. -/
def RWSocketDuplex.read (s : RWSocketDuplex) (_n : Nat) : List Nat × RWSocketDuplex :=
  if s.closed then ([], s)
  else
    let res := s.rsock.recvBeh s.rsock.recvCalls
    let s1 : RWSocketDuplex := { s with rsock := { s.rsock with recvCalls := s.rsock.recvCalls + 1 } }
    match res with
    | .data [] => ([], s1.close)
    | .data bs => (bs, s1)
    | .oserr => ([], s1.close)

/-- Model of `RWSocketDuplex.write`: a no-op on empty data or when closed;
otherwise attempts `sock_sendall` on `wsock`, closing itself if it raises. -/
def RWSocketDuplex.write (s : RWSocketDuplex) (data : List Nat) : RWSocketDuplex :=
  if data = [] ∨ s.closed then s
  else
    let ok := s.wsock.sendOkBeh s.wsock.sendCalls
    let s1 : RWSocketDuplex := { s with wsock := { s.wsock with sendCalls := s.wsock.sendCalls + 1 } }
    if ok then { s1 with wsock := { s1.wsock with sent := s1.wsock.sent ++ data } }
    else s1.close

/-- One caller-visible operation on an `RWSocketDuplex`. -/
inductive DuplexOp
  | read (n : Nat)
  | write (data : List Nat)
  | close

/-- State transition of one operation. -/
def RWSocketDuplex.step (s : RWSocketDuplex) : DuplexOp → RWSocketDuplex
  | .read n => (s.read n).2
  | .write d => s.write d
  | .close => s.close

/-- State after an arbitrary sequence of operations. -/
def RWSocketDuplex.run (s : RWSocketDuplex) (ops : List DuplexOp) : RWSocketDuplex :=
  ops.foldl RWSocketDuplex.step s

/-- Safety invariant of an `RWSocketDuplex`: each underlying socket has been
closed at most once, and none before `_closed` was set. -/
def GoodDuplex (s : RWSocketDuplex) : Prop :=
  s.rsock.closeCalls ≤ 1 ∧ s.wsock.closeCalls ≤ 1 ∧
    (s.closed = false → s.rsock.closeCalls = 0 ∧ s.wsock.closeCalls = 0)

/-! ## Browser-side control loops (`ScrcpyServer.handle_unified_websocket`
and `ScrcpyServer.handle_control_websocket`, `scrcpy.py`) -/

/-- Shape of one JSON control message after `json.loads` succeeded: the
`type` and `actionType` lookups done with `.get`, and presence flags for the
fields accessed with raising `[...]` indexing. -/
structure ParsedMsg where
  type : Option String
  actionType : Option Int
  hasX : Bool
  hasY : Bool
  hasEventNumber : Bool
  hasDetail : Bool
  deriving Repr, DecidableEq

/-- One inbound text frame on the browser-facing channel: either its JSON
payload fails to parse (`json.loads` raises) or it parsed to a `ParsedMsg`. -/
inductive CtrlMsg
  | unparseable
  | parsed (m : ParsedMsg)
  deriving Repr, DecidableEq

/-- Device-visible effect of handling one control message. -/
inductive CtrlEffect
  | touchDown
  | touchUp
  | touchMove
  | keyShell
  | textShell
  | pong
  | dropped
  deriving Repr, DecidableEq

/-- Outcome of one iteration of the `handle_unified_websocket` message loop. -/
inductive UnifiedOutcome
  | next (eff : CtrlEffect)
  | terminated
  deriving Repr, DecidableEq

/-- Outcome of one iteration of the `handle_control_websocket` message loop. -/
inductive ControlOutcome
  | next (eff : CtrlEffect)
  | raised
  deriving Repr, DecidableEq

/-- Model of one iteration of the message loop in
`ScrcpyServer.handle_unified_websocket`: mirrors the `if`/`elif` dispatch of
the source. `json.loads` failures, and `KeyError` on the raising lookups
`message["x"]`, `message["y"]`, `message["data"]["eventNumber"]`,
`message["detail"]`, are caught by the `except Exception` clause which logs
and `break`s (`terminated`); an unknown `actionType` is logged with
`logger.warning` and the loop continues; a message whose `type` matches no
branch falls through and the loop continues. -/
def handle_unified_message : CtrlMsg → UnifiedOutcome
  | .unparseable => .terminated
  | .parsed m =>
    if m.type = some "touch" then
      if m.hasX && m.hasY then
        if m.actionType = some 0 then .next .touchDown
        else if m.actionType = some 1 then .next .touchUp
        else if m.actionType = some 2 then .next .touchMove
        else .next .dropped
      else .terminated
    else if m.type = some "keyEvent" then
      if m.hasEventNumber then .next .keyShell else .terminated
    else if m.type = some "text" then
      if m.hasDetail then .next .textShell else .terminated
    else if m.type = some "ping" then .next .pong
    else .next .dropped

/-- Model of one iteration of the message loop in
`ScrcpyServer.handle_control_websocket`: the inner `try` catches only
`WebSocketDisconnect`, so a `json.loads` failure or a `KeyError` propagates
out of the loop and ends the handler (`raised`); an unknown `actionType`
explicitly raises `Exception("not support action_type: ...")`; this handler
has no `ping` branch; a message whose `type` matches no branch falls through
and the loop continues. -/
def handle_control_message : CtrlMsg → ControlOutcome
  | .unparseable => .raised
  | .parsed m =>
    if m.type = some "touch" then
      if m.hasX && m.hasY then
        if m.actionType = some 0 then .next .touchDown
        else if m.actionType = some 1 then .next .touchUp
        else if m.actionType = some 2 then .next .touchMove
        else .raised
      else .raised
    else if m.type = some "keyEvent" then
      if m.hasEventNumber then .next .keyShell else .raised
    else if m.type = some "text" then
      if m.hasDetail then .next .textShell else .raised
    else .next .dropped

/-- Handshake stream of the spec scenario: sentinel, device name "Pixel"
NUL-padded to 64 bytes, codec bytes 1-2-3-4, resolution 1080x2400 — all 77
bytes delivered in one chunk. -/
def pixelHandshakeStream : List (List Nat) :=
  [[0] ++ (asciiBytes "Pixel" ++ List.replicate 59 0) ++ [1, 2, 3, 4] ++
    [0, 0, 4, 56] ++ [0, 0, 9, 96]]

/-- A chunked handshake stream on which the 64-byte device-name field is
delivered short: the read for it returns only the 5 bytes of "Pixel". -/
def shortNameHandshakeStream : List (List Nat) :=
  [[0], asciiBytes "Pixel", [1, 2, 3, 4], [0, 0, 4, 56, 0, 0, 9, 96]]

/-- The 32 bytes that `_build_touch_event(0, 100, 200, 1080, 1920)` produces. -/
def downScenarioBytes : List Nat :=
  [2, 0, 0, 0, 0, 0, 0, 0, 0, 1, 0, 0, 0, 100, 0, 0, 0, 200, 4, 56, 7, 128,
    0, 1, 0, 0, 0, 1, 0, 0, 0, 1]

/-! ## Support lemmas -/

theorem length_beBytes (k v : Nat) : (beBytes k v).length = k := by
  induction k generalizing v with
  | zero => rfl
  | succ k ih => simp [beBytes, ih]

theorem beVal_append_single (xs : List Nat) (b : Nat) :
    beVal (xs ++ [b]) = beVal xs * 256 + b := by
  simp [beVal, List.foldl_append]

theorem beVal_beBytes (k v : Nat) (h : v < 256 ^ k) :
    beVal (beBytes k v) = v := by
  induction k generalizing v with
  | zero =>
    interval_cases v
    rfl
  | succ k ih =>
    have hdiv : v / 256 < 256 ^ k := by
      rw [Nat.div_lt_iff_lt_mul (by norm_num)]
      calc v < 256 ^ (k + 1) := h
        _ = 256 ^ k * 256 := by ring
    rw [beBytes, beVal_append_single, ih _ hdiv]
    omega

theorem beBytes_lt_256 (k v : Nat) : ∀ b ∈ beBytes k v, b < 256 := by
  induction k generalizing v with
  | zero => simp [beBytes]
  | succ k ih =>
    intro b hb
    rw [beBytes] at hb
    rcases List.mem_append.mp hb with h | h
    · exact ih _ b h
    · simp only [List.mem_singleton] at h
      subst h
      exact Nat.mod_lt _ (by norm_num)

theorem readBE_beBytes (k v : Nat) (h : v < 256 ^ k) (rest : List Nat) :
    readBE k (beBytes k v ++ rest) = some (v, rest) := by
  have hlen : (beBytes k v).length = k := length_beBytes k v
  have h1 : (beBytes k v ++ rest).take k = beBytes k v := by
    rw [List.take_append_of_le_length (by omega)]
    exact List.take_of_length_le (by omega)
  have h2 : (beBytes k v ++ rest).drop k = rest := by
    rw [List.drop_append_of_le_length (by omega)]
    rw [List.drop_of_length_le (by omega)]
    rfl
  rw [readBE, if_pos (by simp [hlen]), h1, h2, beVal_beBytes k v h]

theorem readBE_beBytes_nil (k v : Nat) (h : v < 256 ^ k) :
    readBE k (beBytes k v) = some (v, []) := by
  have := readBE_beBytes k v h []
  simpa using this

theorem clampTo_le (v : Int) (hi : Nat) : clampTo v hi ≤ hi := by
  unfold clampTo
  omega

theorem build_parse_roundtrip (f : TouchFields) (h : f.fits) :
    TouchEvent_parse ((TouchEvent_build f).getD []) = some f := by
  obtain ⟨h1, h2, h3, h4, h5, h6, h7, h8, h9, h10⟩ := h
  rw [TouchEvent_build, if_pos ⟨h1, h2, h3, h4, h5, h6, h7, h8, h9, h10⟩]
  simp only [Option.getD_some, TouchEvent_parse, List.append_assoc,
    readBE_beBytes 1 f.type h1, readBE_beBytes 1 f.action h2,
    readBE_beBytes 8 f.pointer_id h3, readBE_beBytes 4 f.x h4,
    readBE_beBytes 4 f.y h5, readBE_beBytes 2 f.width h6,
    readBE_beBytes 2 f.height h7, readBE_beBytes 2 f.pressure h8,
    readBE_beBytes 4 f.action_button h9, readBE_beBytes_nil 4 f.buttons h10,
    Option.some_bind]

theorem recvStream_fst_one (s : List (List Nat)) :
    (recvStream s 1).1 = (firstByte s).elim [] (fun b => [b]) := by
  induction s with
  | nil => rfl
  | cons c rest ih =>
    cases c with
    | nil => simpa [recvStream, firstByte] using ih
    | cons b bs => simp [recvStream, firstByte]

theorem recvStream_fst_length_le (s : List (List Nat)) (n : Nat) :
    (recvStream s n).1.length ≤ n := by
  induction s with
  | nil => simp [recvStream]
  | cons c rest ih =>
    cases c with
    | nil => simpa [recvStream] using ih
    | cons b bs =>
      simp only [recvStream]
      exact List.length_take_le n _

/-! ## Claim theorems -/

/-- C5: on a stream whose first byte is not `0x00` (or that is empty),
`_parse_scrcpy_info` always fails and consumes at most one byte: none of the
device-name, codec or resolution fields is read. -/
theorem handshake_bad_sentinel_fails (s : List (List Nat))
    (h : firstByte s ≠ some 0) :
    (∃ e, (parse_scrcpy_info s).1 = Except.error e) ∧ (parse_scrcpy_info s).2 ≤ 1 := by
  have hd : (recvStream s 1).1 ≠ [0] := by
    rw [recvStream_fst_one]
    cases hfb : firstByte s with
    | none => simp
    | some b =>
      simp only [Option.elim]
      intro hc
      apply h
      rw [hfb]
      simpa using hc
  have hlen : (recvStream s 1).1.length ≤ 1 := recvStream_fst_length_le s 1
  simp only [parse_scrcpy_info, if_pos hd]
  exact ⟨⟨_, rfl⟩, hlen⟩

/-- Witness for C5 at the concrete stream `[[5], [1, 2]]`. -/
theorem handshake_bad_sentinel_fails_witness :
    firstByte [[5], [1, 2]] ≠ some 0 ∧
      ((∃ e, (parse_scrcpy_info [[5], [1, 2]]).1 = Except.error e) ∧
        (parse_scrcpy_info [[5], [1, 2]]).2 ≤ 1) :=
  ⟨by decide, handshake_bad_sentinel_fails [[5], [1, 2]] (by decide)⟩

/-- C6 counterexample: on `shortNameHandshakeStream` the read of the 64-byte
device-name field is delivered short (5 bytes), yet `_parse_scrcpy_info`
succeeds and produces a handshake result — refuting the claim that a short
fixed-size field always yields a fatal error and never a `MirrorHandshake`. -/
theorem short_device_name_read_still_succeeds :
    (recvStream (recvStream shortNameHandshakeStream 1).2 64).1.length = 5 ∧
      (parse_scrcpy_info shortNameHandshakeStream).1 =
        Except.ok ⟨asciiBytes "Pixel", 1080, 2400⟩ :=
  ⟨rfl, rfl⟩

/-- C6 (amended): `_parse_scrcpy_info` can only succeed when the sentinel read
delivered exactly the byte `0x00` and the resolution read delivered exactly
8 bytes; a short sentinel or resolution field is a fatal error, while short
device-name and codec fields are accepted silently (see the counterexample). -/
theorem handshake_success_needs_sentinel_and_full_resolution
    (s : List (List Nat)) (info : ScrcpyInfo)
    (h : (parse_scrcpy_info s).1 = Except.ok info) :
    (recvStream s 1).1 = [0] ∧
      (recvStream (recvStream (recvStream (recvStream s 1).2 64).2 4).2 8).1.length = 8 := by
  have h1 : ¬ ((recvStream s 1).1 ≠ [0]) := by
    intro hne
    simp only [parse_scrcpy_info, if_pos hne] at h
    exact Except.noConfusion h
  refine ⟨not_not.mp h1, ?_⟩
  by_cases h2 :
      (recvStream (recvStream (recvStream (recvStream s 1).2 64).2 4).2 8).1.length = 8
  · exact h2
  · exfalso
    simp only [parse_scrcpy_info] at h
    rw [if_neg h1] at h
    rw [if_neg h2] at h
    exact Except.noConfusion h

/-- Witness for the amended C6 at `shortNameHandshakeStream`. -/
theorem handshake_success_needs_sentinel_witness :
    (parse_scrcpy_info shortNameHandshakeStream).1 =
        Except.ok ⟨asciiBytes "Pixel", 1080, 2400⟩ ∧
      ((recvStream shortNameHandshakeStream 1).1 = [0] ∧
        (recvStream (recvStream (recvStream
          (recvStream shortNameHandshakeStream 1).2 64).2 4).2 8).1.length = 8) :=
  ⟨rfl, handshake_success_needs_sentinel_and_full_resolution shortNameHandshakeStream
    ⟨asciiBytes "Pixel", 1080, 2400⟩ rfl⟩

/-- C7: decoding the scenario stream — sentinel `0x00`, device name "Pixel"
NUL-padded to 64 bytes, 4 codec bytes, big-endian resolution 1080x2400 —
yields the device name "Pixel" with the padding stripped, width 1080 and
height 2400 (and consumes all 77 bytes). -/
theorem handshake_pixel_scenario :
    parse_scrcpy_info pixelHandshakeStream =
      (Except.ok ⟨asciiBytes "Pixel", 1080, 2400⟩, 77) :=
  rfl

/-- C3: for every input, `_build_touch_event` emits exactly one wire message;
the encoded `x` field is `x` clamped to `[0, width]`, the `y` field is `y`
clamped to `[0, height]`, the `pointer_id` field is always `1`, and
`pressure`, `action_button` and `buttons` are the fixed constant `1` (a single
primary-button press); decoding with the matching decoder recovers exactly
these logical fields. The hypotheses are the wire-format ranges of the
`action` byte and the 2-byte `width`/`height` fields, without which the
`construct` build raises instead of emitting a message. -/
theorem encodeTouch_clamps_and_roundtrips (action : Nat) (x y : Int)
    (width height : Nat) (ha : action < 256) (hw : width < 65536) (hh : height < 65536) :
    ∃ bs, build_touch_event action x y width height = some bs ∧
      TouchEvent_parse bs = some
        { type := INJECT_TOUCH_EVENT
          action := action
          pointer_id := 1
          x := clampTo x width
          y := clampTo y height
          width := width
          height := height
          pressure := 1
          action_button := 1
          buttons := 1 } := by
  have hx := clampTo_le x width
  have hy := clampTo_le y height
  set f : TouchFields :=
    { type := INJECT_TOUCH_EVENT
      action := action
      pointer_id := 1
      x := clampTo x width
      y := clampTo y height
      width := width
      height := height
      pressure := 1
      action_button := 1
      buttons := 1 } with hf
  have hfits : f.fits := by
    refine ⟨by norm_num [hf, INJECT_TOUCH_EVENT], ha, by norm_num [hf], ?_, ?_,
      by simpa [hf] using hw.trans_le (by norm_num),
      by simpa [hf] using hh.trans_le (by norm_num),
      by norm_num [hf], by norm_num [hf], by norm_num [hf]⟩
    · show clampTo x width < 256 ^ 4
      calc clampTo x width ≤ width := hx
        _ < 65536 := hw
        _ ≤ 256 ^ 4 := by norm_num
    · show clampTo y height < 256 ^ 4
      calc clampTo y height ≤ height := hy
        _ < 65536 := hh
        _ ≤ 256 ^ 4 := by norm_num
  obtain ⟨L, hL⟩ : ∃ L, TouchEvent_build f = some L :=
    ⟨_, by rw [TouchEvent_build, if_pos hfits]⟩
  refine ⟨L, ?_, ?_⟩
  · show TouchEvent_build f = some L
    exact hL
  · have hrt := build_parse_roundtrip f hfits
    rwa [hL, Option.getD_some] at hrt

/-- Witness for C3 at `action = 0`, `x = -50`, `y = 5000`, `width = 1080`,
`height = 1920` (both clamps are exercised: `x` clamps to `0`, `y` to `1920`). -/
theorem encodeTouch_clamps_and_roundtrips_witness :
    (0 < 256 ∧ 1080 < 65536 ∧ 1920 < 65536) ∧
      ∃ bs, build_touch_event 0 (-50) 5000 1080 1920 = some bs ∧
        TouchEvent_parse bs = some
          { type := INJECT_TOUCH_EVENT
            action := 0
            pointer_id := 1
            x := clampTo (-50) 1080
            y := clampTo 5000 1920
            width := 1080
            height := 1920
            pressure := 1
            action_button := 1
            buttons := 1 } :=
  ⟨by norm_num,
    encodeTouch_clamps_and_roundtrips 0 (-50) 5000 1080 1920
      (by norm_num) (by norm_num) (by norm_num)⟩

/-- C4 counterexample: the touch-DOWN scenario message
`_build_touch_event(0, 100, 200, 1080, 1920)` is 32 bytes long, not the
28 bytes the claim states (the struct carries a 4-byte `action_button` field
in addition to the fields of the older 28-byte layout). -/
theorem down_scenario_is_32_bytes_not_28 :
    build_touch_event 0 100 200 1080 1920 = some downScenarioBytes ∧
      downScenarioBytes.length = 32 ∧ ¬ downScenarioBytes.length = 28 :=
  ⟨rfl, rfl, by decide⟩

/-- C4 (amended): encoding a touch event with `action = DOWN(0)`, `x = 100`,
`y = 200`, `width = 1080`, `height = 1920` produces the fixed 32-byte
big-endian message whose action byte is `0`, whose `x` field is `100`, whose
`y` field is `200`, and whose `pointer_id` field is `1`. -/
theorem down_scenario_message :
    build_touch_event 0 100 200 1080 1920 = some downScenarioBytes ∧
      downScenarioBytes.length = 32 ∧
      TouchEvent_parse downScenarioBytes = some
        { type := INJECT_TOUCH_EVENT
          action := 0
          pointer_id := 1
          x := 100
          y := 200
          width := 1080
          height := 1920
          pressure := 1
          action_button := 1
          buttons := 1 } :=
  ⟨rfl, rfl, rfl⟩

theorem pipe_oneway_go_spec (wok : Nat → Bool) (fin : ReadEnd) :
    ∀ (cs : List (List Nat)) (k : Nat),
      (∀ n ∈ (pipe_oneway_go wok fin cs k).readReqs, n = 4096) ∧
      (∃ j, (pipe_oneway_go wok fin cs k).written = cs.take j) ∧
      (pipe_oneway_go wok fin cs k).dstClosed = true ∧
      (pipe_oneway_go wok fin cs k).srcClosedByPipe = false := by
  intro cs
  induction cs with
  | nil =>
    intro k
    exact ⟨by simp [pipe_oneway_go], ⟨0, rfl⟩, rfl, rfl⟩
  | cons c cs ih =>
    intro k
    by_cases hc : c = []
    · subst hc
      exact ⟨by simp [pipe_oneway_go], ⟨0, by simp [pipe_oneway_go]⟩,
        by simp [pipe_oneway_go], by simp [pipe_oneway_go]⟩
    · by_cases hw : wok k = true
      · obtain ⟨hreq, ⟨j, hj⟩, hcl, hsrc⟩ := ih (k + 1)
        simp only [pipe_oneway_go, if_neg hc, if_pos hw]
        refine ⟨?_, ⟨j + 1, ?_⟩, hcl, hsrc⟩
        · intro n hn
          rcases List.mem_cons.mp hn with h | h
          · exact h
          · exact hreq n h
        · show c :: (pipe_oneway_go wok fin cs (k + 1)).written = (c :: cs).take (j + 1)
          rw [hj, List.take_succ_cons]
      · refine ⟨?_, ⟨0, ?_⟩, ?_, ?_⟩ <;>
          simp [pipe_oneway_go, if_neg hc, if_neg hw]

/-- C8: every `_pipe_oneway(src, dst)` run requests exactly the fixed chunk
size 4096 on each `src.read`; the chunks written to `dst` are exactly an
initial segment of the chunks read (each written whole and in order, and each
at most 4096 bytes when the endpoint honours the requested size); the loop
stops on an EOF read, a read error, or a write error; and whatever stops it,
`dst` is closed by the `finally` clause while no close (indeed no operation
other than `read`) is ever performed on `src`. -/
theorem pipe_oneway_spec (wok : Nat → Bool) (s : SrcScript)
    (hc : ∀ c ∈ s.chunks, c.length ≤ 4096) :
    (∀ n ∈ (pipe_oneway wok s).readReqs, n = 4096) ∧
      (∃ j, (pipe_oneway wok s).written = s.chunks.take j) ∧
      (∀ c ∈ (pipe_oneway wok s).written, c.length ≤ 4096) ∧
      (pipe_oneway wok s).dstClosed = true ∧
      (pipe_oneway wok s).srcClosedByPipe = false := by
  obtain ⟨h1, ⟨j, hj⟩, h3, h4⟩ := pipe_oneway_go_spec wok s.fin s.chunks 0
  refine ⟨h1, ⟨j, hj⟩, ?_, h3, h4⟩
  intro c hcmem
  rw [show pipe_oneway wok s = pipe_oneway_go wok s.fin s.chunks 0 from rfl, hj] at hcmem
  exact hc c (List.mem_of_mem_take hcmem)

/-- Witness for C8 on a one-chunk script with all writes succeeding. -/
theorem pipe_oneway_spec_witness :
    (∀ c ∈ (SrcScript.mk [[1, 2, 3]] ReadEnd.eof).chunks, c.length ≤ 4096) ∧
      ((∀ n ∈ (pipe_oneway (fun _ => true) ⟨[[1, 2, 3]], ReadEnd.eof⟩).readReqs, n = 4096) ∧
        (∃ j, (pipe_oneway (fun _ => true) ⟨[[1, 2, 3]], ReadEnd.eof⟩).written =
          (SrcScript.mk [[1, 2, 3]] ReadEnd.eof).chunks.take j) ∧
        (∀ c ∈ (pipe_oneway (fun _ => true) ⟨[[1, 2, 3]], ReadEnd.eof⟩).written, c.length ≤ 4096) ∧
        (pipe_oneway (fun _ => true) ⟨[[1, 2, 3]], ReadEnd.eof⟩).dstClosed = true ∧
        (pipe_oneway (fun _ => true) ⟨[[1, 2, 3]], ReadEnd.eof⟩).srcClosedByPipe = false) :=
  ⟨by decide, pipe_oneway_spec (fun _ => true) ⟨[[1, 2, 3]], ReadEnd.eof⟩ (by decide)⟩

theorem duplexLoop_succ (fuel a b r : Nat) :
    duplexLoop (fuel + 1) a b r =
      if a = 0 ∨ b = 0 then
        ((if a = 0 then TStat.finished else TStat.cancelled,
          if b = 0 then TStat.finished else TStat.cancelled), r)
      else duplexLoop fuel (a - 1) (b - 1) (r + 1) :=
  rfl

theorem duplexLoop_spec (a : Nat) : ∀ (b r : Nat),
    duplexLoop (min a b + 1) a b r =
      ((if a ≤ b then TStat.finished else TStat.cancelled,
        if b ≤ a then TStat.finished else TStat.cancelled), r + min a b) := by
  induction a with
  | zero =>
    intro b r
    simp only [Nat.zero_min, duplexLoop, Nat.le_zero, Nat.zero_le, if_true, true_or, if_pos]
    cases b <;> simp
  | succ a ih =>
    intro b r
    cases b with
    | zero => simp [duplexLoop]
    | succ b =>
      rw [Nat.succ_min_succ, duplexLoop_succ, if_neg (by omega)]
      have hstep : duplexLoop (min a b + 1) (a + 1 - 1) (b + 1 - 1) (r + 1) =
          duplexLoop (min a b + 1) a b (r + 1) := by
        norm_num
      rw [hstep, ih b (r + 1)]
      simp only [Nat.add_le_add_iff_right, Prod.mk.injEq]
      exact ⟨by simp, by omega⟩

/-- C2: in the round-robin scheduler model of `pipe_duplex(a, b)` —
`asyncio.wait(..., return_when=FIRST_COMPLETED)` over the two one-way copy
tasks followed by cancellation of the pending task — the wait returns after
exactly `min a b` rounds, i.e. at the instant the first task terminates; in
the final state neither task is still running, at least one terminated on its
own, and a task ends cancelled exactly when its peer terminated first — no
direction keeps running after its peer direction has terminated. -/
theorem pipe_duplex_cancels_peer (a b : Nat) :
    (pipe_duplex a b).2 = min a b ∧
      ((pipe_duplex a b).1.1 = TStat.finished ∨ (pipe_duplex a b).1.1 = TStat.cancelled) ∧
      ((pipe_duplex a b).1.2 = TStat.finished ∨ (pipe_duplex a b).1.2 = TStat.cancelled) ∧
      ((pipe_duplex a b).1.1 = TStat.finished ∨ (pipe_duplex a b).1.2 = TStat.finished) ∧
      ((pipe_duplex a b).1.1 = TStat.cancelled → b < a) ∧
      ((pipe_duplex a b).1.2 = TStat.cancelled → a < b) := by
  have h := duplexLoop_spec a b 0
  rw [show pipe_duplex a b = duplexLoop (min a b + 1) a b 0 from rfl, h]
  rcases Nat.le_total a b with hab | hba
  · rw [if_pos hab]
    by_cases hba2 : b ≤ a
    · rw [if_pos hba2]
      exact ⟨by simp, Or.inl rfl, Or.inl rfl, Or.inl rfl, by simp, by simp⟩
    · rw [if_neg hba2]
      exact ⟨by simp, Or.inl rfl, Or.inr rfl, Or.inl rfl, by simp, fun _ => by omega⟩
  · rw [if_pos hba]
    by_cases hab2 : a ≤ b
    · rw [if_pos hab2]
      exact ⟨by simp, Or.inl rfl, Or.inl rfl, Or.inl rfl, by simp, by simp⟩
    · rw [if_neg hab2]
      exact ⟨by simp, Or.inr rfl, Or.inl rfl, Or.inr rfl, fun _ => by omega, by simp⟩

theorem retryGo_err {E A : Type} (f : Nat → Except E A) (k r : Nat) (e : E)
    (h : f k = Except.error e) : retryGo f k (r + 1) = retryGo f (k + 1) r := by
  simp [retryGo, h]

theorem retryGo_ok {E A : Type} (f : Nat → Except E A) (k r : Nat) (v : A)
    (h : f k = Except.ok v) : retryGo f k (r + 1) = (Except.ok v, k + 1) := by
  simp [retryGo, h]

theorem retryGo_all_err {E A : Type} (g : Nat → Except E A) :
    ∀ (r k : Nat), (∀ i, i < k + r + 1 → ∃ e, g i = Except.error e) →
      ∃ e, retryGo g k r = (Except.error e, k + r + 1)
  | 0, k, h => by
    obtain ⟨e, he⟩ := h k (by omega)
    exact ⟨e, by simp [retryGo, he]⟩
  | r + 1, k, h => by
    obtain ⟨e, he⟩ := h k (by omega)
    obtain ⟨e2, he2⟩ := retryGo_all_err g r (k + 1) (fun i hi => h i (by omega))
    refine ⟨e2, ?_⟩
    have harith : k + 1 + r + 1 = k + (r + 1) + 1 := by omega
    rw [retryGo_err g k r e he, he2, harith]

/-- C9: `_connect_scrcpy` is retried a bounded 20 attempts with a fixed
100 ms backoff. If the first 5 attempts fail (the behaviour `f`) the 6th
success is returned to the caller with no error surfaced, after exactly 6
attempts; if every attempt in the budget fails (the behaviour `g`) the last
error is surfaced after exactly 20 attempts, not retried further. -/
theorem connect_scrcpy_retry_spec {E A : Type} (f g : Nat → Except E A) (v : A)
    (hf5 : ∀ i, i < 5 → ∃ e, f i = Except.error e) (hf6 : f 5 = Except.ok v)
    (hg : ∀ i, i < 20 → ∃ e, g i = Except.error e) :
    connect_scrcpy f = (Except.ok v, 6) ∧
      (∃ e, connect_scrcpy g = (Except.error e, 20)) ∧
      connect_scrcpy_tries = 20 ∧ connect_scrcpy_delay_ms = 100 := by
  refine ⟨?_, ?_, rfl, rfl⟩
  · obtain ⟨e0, he0⟩ := hf5 0 (by norm_num)
    obtain ⟨e1, he1⟩ := hf5 1 (by norm_num)
    obtain ⟨e2, he2⟩ := hf5 2 (by norm_num)
    obtain ⟨e3, he3⟩ := hf5 3 (by norm_num)
    obtain ⟨e4, he4⟩ := hf5 4 (by norm_num)
    have s0 : retryGo f 0 19 = retryGo f 1 18 := retryGo_err f 0 18 e0 he0
    have s1 : retryGo f 1 18 = retryGo f 2 17 := retryGo_err f 1 17 e1 he1
    have s2 : retryGo f 2 17 = retryGo f 3 16 := retryGo_err f 2 16 e2 he2
    have s3 : retryGo f 3 16 = retryGo f 4 15 := retryGo_err f 3 15 e3 he3
    have s4 : retryGo f 4 15 = retryGo f 5 14 := retryGo_err f 4 14 e4 he4
    have s5 : retryGo f 5 14 = (Except.ok v, 6) := retryGo_ok f 5 13 v hf6
    show retryGo f 0 19 = (Except.ok v, 6)
    rw [s0, s1, s2, s3, s4, s5]
  · obtain ⟨e, he⟩ := retryGo_all_err g 19 0 (fun i hi => hg i (by omega))
    exact ⟨e, by simpa using he⟩

/-- Witness for C9 with concrete attempt behaviours. -/
theorem connect_scrcpy_retry_spec_witness :
    ((∀ i, i < 5 → ∃ e, (fun k => if k < 5 then (Except.error 0 : Except Nat Nat)
        else Except.ok 42) i = Except.error e) ∧
      (fun k => if k < 5 then (Except.error 0 : Except Nat Nat) else Except.ok 42) 5 =
        Except.ok 42 ∧
      (∀ i, i < 20 → ∃ e, (fun _ => (Except.error 7 : Except Nat Nat)) i = Except.error e)) ∧
      (connect_scrcpy (fun k => if k < 5 then (Except.error 0 : Except Nat Nat)
          else Except.ok 42) = (Except.ok 42, 6) ∧
        (∃ e, connect_scrcpy (fun _ => (Except.error 7 : Except Nat Nat)) =
          (Except.error e, 20)) ∧
        connect_scrcpy_tries = 20 ∧ connect_scrcpy_delay_ms = 100) :=
  ⟨⟨fun i hi => ⟨0, by simp [hi]⟩, by simp, fun i _ => ⟨7, rfl⟩⟩,
    connect_scrcpy_retry_spec _ _ 42
      (fun i hi => ⟨0, by simp [hi]⟩) (by simp) (fun i _ => ⟨7, rfl⟩)⟩

theorem close_closed (s : RWSocketDuplex) : s.close.closed = true := by
  cases h : s.closed <;> simp [RWSocketDuplex.close, h]

theorem close_of_closed (s : RWSocketDuplex) (h : s.closed = true) : s.close = s := by
  simp [RWSocketDuplex.close, h]

theorem close_idem (s : RWSocketDuplex) : s.close.close = s.close :=
  close_of_closed _ (close_closed s)

theorem read_of_closed (s : RWSocketDuplex) (h : s.closed = true) (n : Nat) :
    s.read n = ([], s) := by
  simp [RWSocketDuplex.read, h]

theorem write_of_closed (s : RWSocketDuplex) (h : s.closed = true) (d : List Nat) :
    s.write d = s := by
  simp [RWSocketDuplex.write, h]

theorem good_close (s : RWSocketDuplex) (h : GoodDuplex s) : GoodDuplex s.close := by
  obtain ⟨h1, h2, h3⟩ := h
  cases hcl : s.closed
  · obtain ⟨hr0, hw0⟩ := h3 hcl
    refine ⟨?_, ?_, ?_⟩ <;> simp [RWSocketDuplex.close, hcl]
    · omega
    · cases hs : s.same <;> simp <;> omega
  · rw [close_of_closed s hcl]
    exact ⟨h1, h2, h3⟩

theorem good_step (s : RWSocketDuplex) (op : DuplexOp) (h : GoodDuplex s) :
    GoodDuplex (s.step op) := by
  obtain ⟨h1, h2, h3⟩ := h
  cases op with
  | read n =>
    show GoodDuplex (s.read n).2
    cases hcl : s.closed
    · rcases hres : s.rsock.recvBeh s.rsock.recvCalls with bs | _
      · cases bs with
        | nil =>
          simp only [RWSocketDuplex.read, hcl, Bool.false_eq_true, if_false, hres]
          exact good_close _ ⟨h1, h2, fun _ => h3 hcl⟩
        | cons b tl =>
          simp only [RWSocketDuplex.read, hcl, Bool.false_eq_true, if_false, hres]
          exact ⟨h1, h2, fun _ => h3 hcl⟩
      · simp only [RWSocketDuplex.read, hcl, Bool.false_eq_true, if_false, hres]
        exact good_close _ ⟨h1, h2, fun _ => h3 hcl⟩
    · rw [read_of_closed s hcl]
      exact ⟨h1, h2, h3⟩
  | write d =>
    show GoodDuplex (s.write d)
    cases hcl : s.closed
    · by_cases hd : d = []
      · simp only [RWSocketDuplex.write, hd, true_or, if_true]
        exact ⟨h1, h2, h3⟩
      · cases hok : s.wsock.sendOkBeh s.wsock.sendCalls
        · simp only [RWSocketDuplex.write, hcl, Bool.false_eq_true, or_false,
            if_neg hd, hok, Bool.false_eq_true, if_false]
          exact good_close _ ⟨h1, h2, fun _ => h3 hcl⟩
        · simp only [RWSocketDuplex.write, hcl, Bool.false_eq_true, or_false,
            if_neg hd, hok, if_true]
          exact ⟨h1, h2, fun _ => h3 hcl⟩
    · rw [write_of_closed s hcl]
      exact ⟨h1, h2, h3⟩
  | close =>
    exact good_close _ ⟨h1, h2, h3⟩

theorem good_run (s : RWSocketDuplex) (ops : List DuplexOp) (h : GoodDuplex s) :
    GoodDuplex (s.run ops) := by
  induction ops generalizing s with
  | nil => exact h
  | cons op ops ih => exact ih _ (good_step s op h)

/-- C10: over every operation sequence on an `RWSocketDuplex` each underlying
socket is closed at most once (and never before `_closed` is set); once the
duplex is closed — by `close()`, an EOF, or an observed
`ConnectionResetError`/`OSError` (all of which set `_closed`) — every further
`read` returns the empty byte string and leaves the state untouched, every
further `write` discards its data without touching the sockets, and `close()`
is idempotent. Every modelled operation is total: the caught error outcomes
are absorbed into the state rather than raised. -/
theorem rwsocket_duplex_safety (s : RWSocketDuplex) (ops : List DuplexOp)
    (n : Nat) (d : List Nat) (hs : GoodDuplex s) :
    GoodDuplex (s.run ops) ∧
      ((s.run ops).closed = true →
        (s.run ops).read n = ([], s.run ops) ∧ (s.run ops).write d = s.run ops) ∧
      (s.run ops).close.close = (s.run ops).close ∧
      (s.run ops).close.closed = true :=
  ⟨good_run s ops hs,
    fun h => ⟨read_of_closed _ h n, write_of_closed _ h d⟩,
    close_idem _, close_closed _⟩

/-- Witness for C10 on a fresh duplex and a concrete operation sequence that
exercises an erroring read, double close and a post-close write. -/
theorem rwsocket_duplex_safety_witness :
    GoodDuplex (RWSocketDuplex.init (fun _ => RecvRes.oserr) (fun _ => false)
        (fun _ => RecvRes.oserr) (fun _ => false) false) ∧
      (GoodDuplex ((RWSocketDuplex.init (fun _ => RecvRes.oserr) (fun _ => false)
          (fun _ => RecvRes.oserr) (fun _ => false) false).run
            [DuplexOp.read 4096, DuplexOp.close, DuplexOp.close, DuplexOp.write [7]]) ∧
        (((RWSocketDuplex.init (fun _ => RecvRes.oserr) (fun _ => false)
          (fun _ => RecvRes.oserr) (fun _ => false) false).run
            [DuplexOp.read 4096, DuplexOp.close, DuplexOp.close, DuplexOp.write [7]]).closed = true →
          ((RWSocketDuplex.init (fun _ => RecvRes.oserr) (fun _ => false)
          (fun _ => RecvRes.oserr) (fun _ => false) false).run
            [DuplexOp.read 4096, DuplexOp.close, DuplexOp.close, DuplexOp.write [7]]).read 16 =
            ([], (RWSocketDuplex.init (fun _ => RecvRes.oserr) (fun _ => false)
          (fun _ => RecvRes.oserr) (fun _ => false) false).run
            [DuplexOp.read 4096, DuplexOp.close, DuplexOp.close, DuplexOp.write [7]]) ∧
          ((RWSocketDuplex.init (fun _ => RecvRes.oserr) (fun _ => false)
          (fun _ => RecvRes.oserr) (fun _ => false) false).run
            [DuplexOp.read 4096, DuplexOp.close, DuplexOp.close, DuplexOp.write [7]]).write [9] =
            (RWSocketDuplex.init (fun _ => RecvRes.oserr) (fun _ => false)
          (fun _ => RecvRes.oserr) (fun _ => false) false).run
            [DuplexOp.read 4096, DuplexOp.close, DuplexOp.close, DuplexOp.write [7]]) ∧
        (((RWSocketDuplex.init (fun _ => RecvRes.oserr) (fun _ => false)
          (fun _ => RecvRes.oserr) (fun _ => false) false).run
            [DuplexOp.read 4096, DuplexOp.close, DuplexOp.close, DuplexOp.write [7]]).close.close =
          ((RWSocketDuplex.init (fun _ => RecvRes.oserr) (fun _ => false)
          (fun _ => RecvRes.oserr) (fun _ => false) false).run
            [DuplexOp.read 4096, DuplexOp.close, DuplexOp.close, DuplexOp.write [7]]).close) ∧
        (((RWSocketDuplex.init (fun _ => RecvRes.oserr) (fun _ => false)
          (fun _ => RecvRes.oserr) (fun _ => false) false).run
            [DuplexOp.read 4096, DuplexOp.close, DuplexOp.close, DuplexOp.write [7]]).close.closed = true)) :=
  ⟨⟨Nat.zero_le 1, Nat.zero_le 1, fun _ => ⟨rfl, rfl⟩⟩,
    rwsocket_duplex_safety _ _ 16 [9] ⟨Nat.zero_le 1, Nat.zero_le 1, fun _ => ⟨rfl, rfl⟩⟩⟩

/-- C1 counterexample: a browser-side control message whose JSON payload does
not parse terminates both control loops — in `handle_unified_websocket` the
`except Exception` clause logs and `break`s out of the message loop, and in
`handle_control_websocket` the exception propagates out of the loop — contrary
to the claim that no unknown or malformed message ever terminates the
session. -/
theorem malformed_message_terminates_loops :
    handle_unified_message CtrlMsg.unparseable = UnifiedOutcome.terminated ∧
      handle_control_message CtrlMsg.unparseable = ControlOutcome.raised :=
  ⟨rfl, rfl⟩

/-- C1 (amended): a parsed control message whose `type` matches no branch is
dropped and both control loops continue, and in the unified handler a `touch`
message carrying coordinates but an unknown `actionType` is logged and
dropped; but a message with unparseable JSON terminates the loop (logged
`break` in the unified handler, exception propagation in the control
handler). -/
theorem unknown_control_messages_dropped (m m2 : ParsedMsg) (t : String) (a : Int)
    (hm : m.type = some t) (h1 : t ≠ "touch") (h2 : t ≠ "keyEvent")
    (h3 : t ≠ "text") (h4 : t ≠ "ping")
    (hm2 : m2.type = some "touch") (hx : m2.hasX = true) (hy : m2.hasY = true)
    (ha : m2.actionType = some a) (ha0 : a ≠ 0) (ha1 : a ≠ 1) (ha2 : a ≠ 2) :
    handle_unified_message (CtrlMsg.parsed m) = UnifiedOutcome.next CtrlEffect.dropped ∧
      handle_control_message (CtrlMsg.parsed m) = ControlOutcome.next CtrlEffect.dropped ∧
      handle_unified_message (CtrlMsg.parsed m2) = UnifiedOutcome.next CtrlEffect.dropped ∧
      handle_unified_message CtrlMsg.unparseable = UnifiedOutcome.terminated ∧
      handle_control_message CtrlMsg.unparseable = ControlOutcome.raised := by
  refine ⟨?_, ?_, ?_, rfl, rfl⟩
  · simp [handle_unified_message, hm, h1, h2, h3, h4]
  · simp [handle_control_message, hm, h1, h2, h3, h4]
  · simp [handle_unified_message, hm2, hx, hy, ha, ha0, ha1, ha2]

/-- Witness for the amended C1 at a concrete unknown-type message and a
concrete unknown-actionType touch message. -/
theorem unknown_control_messages_dropped_witness :
    ((ParsedMsg.mk (some "rotate") none false false false false).type = some "rotate" ∧
      (ParsedMsg.mk (some "touch") (some 7) true true false false).type = some "touch") ∧
      (handle_unified_message
          (CtrlMsg.parsed (ParsedMsg.mk (some "rotate") none false false false false)) =
        UnifiedOutcome.next CtrlEffect.dropped ∧
      handle_control_message
          (CtrlMsg.parsed (ParsedMsg.mk (some "rotate") none false false false false)) =
        ControlOutcome.next CtrlEffect.dropped ∧
      handle_unified_message
          (CtrlMsg.parsed (ParsedMsg.mk (some "touch") (some 7) true true false false)) =
        UnifiedOutcome.next CtrlEffect.dropped ∧
      handle_unified_message CtrlMsg.unparseable = UnifiedOutcome.terminated ∧
      handle_control_message CtrlMsg.unparseable = ControlOutcome.raised) :=
  ⟨⟨rfl, rfl⟩,
    unknown_control_messages_dropped
      (ParsedMsg.mk (some "rotate") none false false false false)
      (ParsedMsg.mk (some "touch") (some 7) true true false false)
      "rotate" 7 rfl (by decide) (by decide) (by decide) (by decide)
      rfl rfl rfl rfl (by decide) (by decide) (by decide)⟩

end Uiautodev
